import Mathlib

/-!
Shallow embedding of the banner-management module
`azure-devops-extension/azext_devops/dev/admin/banner.py` of dhilmathy/vsts-cli,
together with models (taken from the design spec) of its two external
collaborators: the Settings Store (`setting.py`, not part of the sources here)
and the Date Normalizer (`convert_date_string_to_iso8601`).

Python dictionaries are embedded as ordered association lists over `String`
keys; Python values stored under a banner sub-key are either strings or `None`,
embedded as `Val`.  Each banner operation returns its result (an
`Except String _`, where `Except.error` models a raised `ValueError`) together
with the list of Settings Store calls it performed, in order; `applyCalls`
gives the effect of such a call trace on the host-scope store state.
-/

namespace VstsBanner

/-- A value stored under a banner entry sub-key: a Python string or Python `None`. -/
inductive Val where
  | str : String → Val
  | null : Val
deriving DecidableEq

/-- A banner entry: a Python dict from sub-key names to values (ordered association list). -/
abbrev Entry := List (String × Val)

/-- The host-scope Settings Store content: full setting key ↦ entry. -/
abbrev Store := List (String × Entry)

/-- Python dict lookup: `d[k]` (and `k in d` via `Option.isSome`). -/
def alGet {α : Type} : List (String × α) → String → Option α
  | [], _ => none
  | (k', v) :: rest, k => if k' = k then some v else alGet rest k

/-- Python dict assignment `d[k] = v`: replace the value in place if the key is
present, otherwise append the new pair at the end (insertion order). -/
def alSet {α : Type} : List (String × α) → String → α → List (String × α)
  | [], k, v => [(k, v)]
  | (k', v') :: rest, k, v => if k' = k then (k', v) :: rest else (k', v') :: alSet rest k v

/-- Deletion of a key from an association list. -/
def alRemove {α : Type} : List (String × α) → String → List (String × α)
  | [], _ => []
  | (k', v) :: rest, k => if k' = k then alRemove rest k else (k', v) :: alRemove rest k

/-- Drop `p` from the front of `s`, when `p` is a leading segment of `s`. -/
def dropPfx : List Char → List Char → Option (List Char)
  | [], s => some s
  | _ :: _, [] => none
  | c :: p, c' :: s => if c = c' then dropPfx p s else none

/-- Modelled from the spec: the fixed namespace key constant under which all banner
entries live.  Its value is declared in `setting.py` (imported by `banner.py` as
`GLOBAL_MESSAGE_BANNERS_KEY`), which is not among the sources here; the spec calls it
"a fixed prefix string under which all banner entries live". -/
def GLOBAL_MESSAGE_BANNERS_KEY : String := "GlobalMessageBanners"

/-- Modelled from the spec: the `host` user-scope constant from `setting.py`. -/
def USER_SCOPE_HOST : String := "host"

/-- One call made to the Settings Store collaborator, in the order issued:
`list(user_scope, key)`, `addOrUpdate(user_scope, entries)` or `remove(user_scope, key)`. -/
inductive StoreCall where
  | list : String → String → StoreCall
  | addOrUpdate : String → List (String × Entry) → StoreCall
  | remove : String → String → StoreCall
deriving DecidableEq

/-- Modelled from the spec: `setting_list` (in `setting.py`, not among the sources
here).  Spec §3: "enumeration is done by listing all entries under the namespace
prefix and treating each sub-key suffix as an id", i.e. an entry stored at full key
`key ++ "/" ++ id` appears in the listing under the bare `id`. -/
def setting_list : Store → String → List (String × Entry)
  | [], _ => []
  | (k, e) :: rest, key =>
    match dropPfx (key ++ "/").data k.data with
    | some suffix => (String.mk suffix, e) :: setting_list rest key
    | none => setting_list rest key

/-- Modelled from the spec: the effect of one Settings Store call on the host-scope
store state (`list` reads only; `addOrUpdate` overwrites each given key; `remove`
deletes the key). -/
def applyCall (store : Store) : StoreCall → Store
  | StoreCall.list _ _ => store
  | StoreCall.addOrUpdate _ entries => entries.foldl (fun s p => alSet s p.1 p.2) store
  | StoreCall.remove _ key => alRemove store key

/-- Effect of a trace of Settings Store calls on the store state. -/
def applyCalls (store : Store) (calls : List StoreCall) : Store :=
  calls.foldl applyCall store

/-- Modelled from the spec: the Date Normalizer collaborator
(`convert_date_string_to_iso8601` in `common/arguments.py`, not among the sources
here): "converts a user-supplied date expression into a canonical timestamp string
and fails with a validation error on unparseable input".  The abstract parse
function `nrm` returns `none` exactly on unparseable input. -/
def convert_date_string_to_iso8601 (nrm : String → Option String) (value : String)
    (argument : String) : Except String String :=
  match nrm value with
  | some iso => Except.ok iso
  | none => Except.error ("The following value is invalid for argument " ++ argument ++ ": " ++ value)

/-- The `if expiration is not None: expiration_iso8601 = convert_date_string_to_iso8601(...)`
prologue shared by `banner_add` and `banner_update`. -/
def normalize_expiration (nrm : String → Option String) (expiration : Option String) :
    Except String (Option String) :=
  match expiration with
  | some v =>
    match convert_date_string_to_iso8601 nrm v "expiration" with
    | Except.ok iso => Except.ok (some iso)
    | Except.error e => Except.error e
  | none => Except.ok none

/-! ### Model of `str(uuid.uuid4())` -/

/-- Little-endian hexadecimal digits of `n`, padded to `d` digits. -/
def hexChars : Nat → Nat → List Char
  | 0, _ => []
  | d + 1, n => Nat.digitChar (n % 16) :: hexChars d (n / 16)

/-- Group 32 hexadecimal characters in the 8-4-4-4-12 UUID shape with hyphens. -/
def uuidGroup (l : List Char) : List Char :=
  l.take 8 ++ '-' :: ((l.drop 8).take 4 ++ '-' :: ((l.drop 12).take 4 ++ '-' :: ((l.drop 16).take 4 ++ '-' :: l.drop 20)))

/-- Modelled from the spec: `str(uuid.uuid4())` (the `uuid` library is an external
collaborator).  Spec §3/§9: "a 128-bit random token formatted as a UUID-like
string"; the 128-bit random token is the explicit argument `rand`. -/
def str_uuid4 (rand : Nat) : String :=
  String.mk (uuidGroup ((hexChars 32 (rand % 2 ^ 128)).reverse))

/-- Value of a hexadecimal digit character. -/
def hexVal (c : Char) : Nat :=
  if c = '0' then 0 else if c = '1' then 1 else if c = '2' then 2
  else if c = '3' then 3 else if c = '4' then 4 else if c = '5' then 5
  else if c = '6' then 6 else if c = '7' then 7 else if c = '8' then 8
  else if c = '9' then 9 else if c = 'a' then 10 else if c = 'b' then 11
  else if c = 'c' then 12 else if c = 'd' then 13 else if c = 'e' then 14
  else if c = 'f' then 15 else 0

/-- Inverse of `hexChars`: read little-endian hexadecimal digits back into a number. -/
def unhexChars : List Char → Nat
  | [] => 0
  | c :: cs => hexVal c + 16 * unhexChars cs

/-- Recover the 128-bit token from a formatted UUID string. -/
def uuidDecode (s : String) : Nat :=
  unhexChars ((s.data.filter (fun c => decide (c ≠ '-'))).reverse)

theorem hexVal_digitChar : ∀ v, v < 16 → hexVal (Nat.digitChar v) = v := by decide

theorem digitChar_ne_dash : ∀ v, v < 16 → Nat.digitChar v ≠ '-' := by decide

theorem unhexChars_hexChars : ∀ (d n : Nat), n < 16 ^ d → unhexChars (hexChars d n) = n := by
  intro d
  induction d with
  | zero =>
    intro n hn
    interval_cases n
    rfl
  | succ d ih =>
    intro n hn
    have hdiv : n / 16 < 16 ^ d := by
      rw [Nat.div_lt_iff_lt_mul (by norm_num : 0 < 16)]
      calc n < 16 ^ (d + 1) := hn
        _ = 16 ^ d * 16 := by rw [pow_succ]
    have hmod : n % 16 < 16 := Nat.mod_lt _ (by norm_num)
    simp only [hexChars, unhexChars, ih _ hdiv, hexVal_digitChar _ hmod]
    omega

theorem mem_hexChars_ne_dash : ∀ (d n : Nat) (c : Char), c ∈ hexChars d n → c ≠ '-' := by
  intro d
  induction d with
  | zero => intro n c hc; simp [hexChars] at hc
  | succ d ih =>
    intro n c hc
    simp only [hexChars, List.mem_cons] at hc
    rcases hc with h | h
    · subst h; exact digitChar_ne_dash _ (Nat.mod_lt _ (by norm_num))
    · exact ih _ _ h

theorem uuidGroup_recompose (l : List Char) :
    l.take 8 ++ ((l.drop 8).take 4 ++ ((l.drop 12).take 4 ++ ((l.drop 16).take 4 ++ l.drop 20))) = l := by
  have h20 : (l.drop 16).take 4 ++ l.drop 20 = l.drop 16 := by
    have h : (l.drop 16).drop 4 = l.drop 20 := by
      rw [List.drop_drop]
    rw [← h, List.take_append_drop]
  have h16 : (l.drop 12).take 4 ++ l.drop 16 = l.drop 12 := by
    have h : (l.drop 12).drop 4 = l.drop 16 := by
      rw [List.drop_drop]
    rw [← h, List.take_append_drop]
  have h12 : (l.drop 8).take 4 ++ l.drop 12 = l.drop 8 := by
    have h : (l.drop 8).drop 4 = l.drop 12 := by
      rw [List.drop_drop]
    rw [← h, List.take_append_drop]
  rw [h20, h16, h12, List.take_append_drop]

theorem filter_uuidGroup (l : List Char) (hl : ∀ c ∈ l, c ≠ '-') :
    (uuidGroup l).filter (fun c => decide (c ≠ '-')) = l := by
  have hseg : ∀ (s : List Char), (∀ c ∈ s, c ∈ l) →
      s.filter (fun c => decide (c ≠ '-')) = s := by
    intro s hs
    apply List.filter_eq_self.mpr
    intro c hc
    exact decide_eq_true (hl c (hs c hc))
  have hdash : (fun c => decide (c ≠ '-')) '-' = false := by decide
  simp only [uuidGroup, List.filter_append, List.filter_cons, hdash]
  rw [hseg _ (fun c hc => List.mem_of_mem_take hc),
    hseg _ (fun c hc => List.mem_of_mem_drop (List.mem_of_mem_take hc)),
    hseg _ (fun c hc => List.mem_of_mem_drop (List.mem_of_mem_take hc)),
    hseg _ (fun c hc => List.mem_of_mem_drop (List.mem_of_mem_take hc)),
    hseg _ (fun c hc => List.mem_of_mem_drop hc)]
  exact uuidGroup_recompose l

theorem uuidDecode_str_uuid4 (rand : Nat) : uuidDecode (str_uuid4 rand) = rand % 2 ^ 128 := by
  have hmem : ∀ c ∈ (hexChars 32 (rand % 2 ^ 128)).reverse, c ≠ '-' := by
    intro c hc
    exact mem_hexChars_ne_dash 32 _ c (List.mem_reverse.mp hc)
  have hlt : rand % 2 ^ 128 < 16 ^ 32 := by
    have h1 : rand % 2 ^ 128 < 2 ^ 128 := Nat.mod_lt _ (by positivity)
    have h2 : (16 : Nat) ^ 32 = 2 ^ 128 := by norm_num
    omega
  show unhexChars ((((String.mk (uuidGroup ((hexChars 32 (rand % 2 ^ 128)).reverse))).data.filter
      (fun c => decide (c ≠ '-'))).reverse)) = rand % 2 ^ 128
  rw [show (String.mk (uuidGroup ((hexChars 32 (rand % 2 ^ 128)).reverse))).data
      = uuidGroup ((hexChars 32 (rand % 2 ^ 128)).reverse) from rfl]
  rw [filter_uuidGroup _ hmem, List.reverse_reverse]
  exact unhexChars_hexChars 32 _ hlt

theorem str_uuid4_ne_empty (rand : Nat) : str_uuid4 rand ≠ "" := by
  intro h
  have hdata : (str_uuid4 rand).data = ([] : List Char) := by rw [h]
  have : '-' ∈ (str_uuid4 rand).data := by
    show '-' ∈ uuidGroup ((hexChars 32 (rand % 2 ^ 128)).reverse)
    unfold uuidGroup
    simp
  rw [hdata] at this
  simp at this

theorem str_uuid4_injective {r1 r2 : Nat} (h1 : r1 < 2 ^ 128) (h2 : r2 < 2 ^ 128)
    (hne : r1 ≠ r2) : str_uuid4 r1 ≠ str_uuid4 r2 := by
  intro h
  have := congrArg uuidDecode h
  rw [uuidDecode_str_uuid4, uuidDecode_str_uuid4, Nat.mod_eq_of_lt h1, Nat.mod_eq_of_lt h2] at this
  exact hne this

/-! ### The banner operations, translated from `banner.py` -/

/-- Translation of `_get_banner_key(message_id)`: `GLOBAL_MESSAGE_BANNERS_KEY + '/' + message_id`. -/
def _get_banner_key (message_id : String) : String :=
  GLOBAL_MESSAGE_BANNERS_KEY ++ "/" ++ message_id

/-- The Python value placed in a fresh dict literal `{"message": message}` where
`message` is an optional argument: the string itself, or `None`. -/
def optVal : Option String → Val
  | some s => Val.str s
  | none => Val.null

/-- Translation of `banner_show(message_id)`: full listing fetch, bare-id lookup, singleton result
or `ValueError('The following banner was not found: %s' % message_id)`. -/
def banner_show (store : Store) (message_id : String) :
    Except String (List (String × Entry)) × List StoreCall :=
  let existing_entries := setting_list store GLOBAL_MESSAGE_BANNERS_KEY
  match alGet existing_entries message_id with
  | none => (Except.error ("The following banner was not found: " ++ message_id),
             [StoreCall.list "host" GLOBAL_MESSAGE_BANNERS_KEY])
  | some v => (Except.ok [(message_id, v)],
               [StoreCall.list "host" GLOBAL_MESSAGE_BANNERS_KEY])

/-- Lines 72–80 of `banner.py` (`banner_add`): build
`entries[setting_key] = {"message": message}`, then conditionally set `'level'`
and `'expirationDate'`. -/
def build_add_entry (message : String) (banner_type expiration_iso8601 : Option String) : Entry :=
  let entry0 : Entry := [("message", Val.str message)]
  let entry1 : Entry :=
    match banner_type with
    | some bt => alSet entry0 "level" (Val.str bt)
    | none => entry0
  match expiration_iso8601 with
  | some iso => alSet entry1 "expirationDate" (Val.str iso)
  | none => entry1

/-- Translation of `banner_add(message, banner_type, message_id, expiration)`.  The 128-bit random
token feeding `str(uuid.uuid4())` is the explicit argument `rand`. -/
def banner_add (nrm : String → Option String) (rand : Nat) (message : String)
    (banner_type message_id expiration : Option String) :
    Except String (List (String × Entry)) × List StoreCall :=
  match normalize_expiration nrm expiration with
  | Except.error e => (Except.error e, [])
  | Except.ok expiration_iso8601 =>
    let mid : String :=
      match message_id with
      | none => str_uuid4 rand
      | some s => if s = "" then str_uuid4 rand else s
    let setting_key := _get_banner_key mid
    let entry := build_add_entry message banner_type expiration_iso8601
    (Except.ok [(mid, entry)],
     [StoreCall.addOrUpdate USER_SCOPE_HOST [(setting_key, entry)]])

/-- Lines 120–138 of `banner.py` (`banner_update`): start from
`{"message": message}` (where `message` may be `None`), then for each of the three
fields take the newly supplied value if given, else copy the existing entry's value
when that entry has the sub-key. -/
def merge_entry (existing_entry : Entry) (message banner_type expiration_iso8601 : Option String) :
    Entry :=
  let entry0 : Entry := [("message", optVal message)]
  let entry1 : Entry :=
    match message with
    | some m => alSet entry0 "message" (Val.str m)
    | none =>
      match alGet existing_entry "message" with
      | some v => alSet entry0 "message" v
      | none => entry0
  let entry2 : Entry :=
    match banner_type with
    | some bt => alSet entry1 "level" (Val.str bt)
    | none =>
      match alGet existing_entry "level" with
      | some v => alSet entry1 "level" v
      | none => entry1
  match expiration_iso8601 with
  | some iso => alSet entry2 "expirationDate" (Val.str iso)
  | none =>
    match alGet existing_entry "expirationDate" with
    | some v => alSet entry2 "expirationDate" v
    | none => entry2

/-- Translation of `banner_update(message, banner_type, message_id, expiration)`: validation that at
least one optional argument was supplied, expiration normalization, full listing
fetch, bare-id lookup, full replacement entry synthesis, write at the namespaced key. -/
def banner_update (nrm : String → Option String) (store : Store)
    (message banner_type : Option String) (message_id : String) (expiration : Option String) :
    Except String (List (String × Entry)) × List StoreCall :=
  if message = none ∧ banner_type = none ∧ expiration = none then
    (Except.error ("At least one of the following arguments need to be supplied: --message, --type, "
       ++ "--expiration."), [])
  else
    match normalize_expiration nrm expiration with
    | Except.error e => (Except.error e, [])
    | Except.ok expiration_iso8601 =>
      let existing_entries := setting_list store GLOBAL_MESSAGE_BANNERS_KEY
      match alGet existing_entries message_id with
      | none => (Except.error ("The following banner was not found: " ++ message_id),
                 [StoreCall.list "host" GLOBAL_MESSAGE_BANNERS_KEY])
      | some existing_entry =>
        let setting_key := _get_banner_key message_id
        let entry := merge_entry existing_entry message banner_type expiration_iso8601
        (Except.ok [(message_id, entry)],
         [StoreCall.list "host" GLOBAL_MESSAGE_BANNERS_KEY,
          StoreCall.addOrUpdate USER_SCOPE_HOST [(setting_key, entry)]])

/-- Translation of `banner_remove(message_id)`: unconditional `setting_remove` at the namespaced key. -/
def banner_remove (message_id : String) : Except String Unit × List StoreCall :=
  (Except.ok (), [StoreCall.remove "host" (_get_banner_key message_id)])

/-! ### Association-list and store lemmas -/

theorem alGet_alSet_self {α : Type} (l : List (String × α)) (k : String) (v : α) :
    alGet (alSet l k v) k = some v := by
  induction l with
  | nil => simp [alSet, alGet]
  | cons p rest ih =>
    obtain ⟨k', v'⟩ := p
    by_cases h : k' = k
    · subst h; simp [alSet, alGet]
    · simp [alSet, alGet, h, ih]

theorem alGet_alSet_ne {α : Type} (l : List (String × α)) {k' k : String} (v : α)
    (h : k' ≠ k) : alGet (alSet l k' v) k = alGet l k := by
  induction l with
  | nil => simp [alSet, alGet, h]
  | cons p rest ih =>
    obtain ⟨k'', v''⟩ := p
    by_cases h2 : k'' = k'
    · subst h2; simp [alSet, alGet, h, ih]
    · simp [alSet, alGet, h2, ih]

theorem fst_of_mem_alSet {α : Type} {k : String} {v : α} :
    ∀ {l : List (String × α)} {q : String × α}, q ∈ alSet l k v → q.1 = k ∨ q ∈ l := by
  intro l
  induction l with
  | nil =>
    intro q h
    simp [alSet] at h
    subst h
    left
    rfl
  | cons p rest ih =>
    intro q h
    obtain ⟨k', v'⟩ := p
    by_cases h2 : k' = k
    · subst h2
      simp [alSet] at h
      rcases h with h | h
      · subst h; left; rfl
      · right; exact List.mem_cons_of_mem _ h
    · simp [alSet, h2] at h
      rcases h with h | h
      · subst h; right; exact List.mem_cons_self _ _
      · rcases ih h with h3 | h3
        · left; exact h3
        · right; exact List.mem_cons_of_mem _ h3

theorem dropPfx_some : ∀ (p s t : List Char), dropPfx p s = some t → s = p ++ t := by
  intro p
  induction p with
  | nil => intro s t h; simp [dropPfx] at h; simp [h]
  | cons c p ih =>
    intro s t h
    cases s with
    | nil => simp [dropPfx] at h
    | cons c' s =>
      by_cases hc : c = c'
      · subst hc
        simp only [dropPfx, if_pos rfl] at h
        simp [ih s t h]
      · simp [dropPfx, hc] at h

/-- After the namespaced key of `id` is removed from the store, the listing keyed by
the namespace prefix no longer contains `id`. -/
theorem alGet_setting_list_alRemove (store : Store) (key id : String) :
    alGet (setting_list (alRemove store (key ++ "/" ++ id)) key) id = none := by
  induction store with
  | nil => rfl
  | cons p rest ih =>
    obtain ⟨k, e⟩ := p
    by_cases hk : k = key ++ "/" ++ id
    · simpa [alRemove, hk] using ih
    · simp only [alRemove, if_neg hk]
      cases hd : dropPfx (key ++ "/").data k.data with
      | none =>
        rw [setting_list, hd]
        exact ih
      | some t =>
        have hne : String.mk t ≠ id := by
          intro h
          apply hk
          apply String.ext
          rw [dropPfx_some _ _ _ hd, String.data_append, ← h]
          rfl
        rw [setting_list, hd]
        show alGet ((String.mk t, e) :: setting_list (alRemove rest (key ++ "/" ++ id)) key) id = none
        rw [alGet, if_neg hne]
        exact ih

/-! ### Entry-shape lemmas -/

theorem build_add_entry_gets (msg : String) (bt iso : Option String) :
    alGet (build_add_entry msg bt iso) "message" = some (Val.str msg)
  ∧ alGet (build_add_entry msg bt iso) "level" = Option.map Val.str bt
  ∧ alGet (build_add_entry msg bt iso) "expirationDate" = Option.map Val.str iso := by
  cases bt <;> cases iso <;> simp [build_add_entry, alSet, alGet]

theorem merge_entry_gets (ex : Entry) (m bt iso : Option String) :
    alGet (merge_entry ex m bt iso) "message"
      = some (m.elim ((alGet ex "message").getD Val.null) Val.str)
  ∧ alGet (merge_entry ex m bt iso) "level"
      = bt.elim (alGet ex "level") (fun s => some (Val.str s))
  ∧ alGet (merge_entry ex m bt iso) "expirationDate"
      = iso.elim (alGet ex "expirationDate") (fun s => some (Val.str s)) := by
  cases m <;> cases bt <;> cases iso <;>
    cases hm : alGet ex "message" <;> cases hl : alGet ex "level" <;>
    cases he : alGet ex "expirationDate" <;>
    simp [merge_entry, optVal, hm, hl, he, alSet, alGet]

theorem build_add_entry_keys (msg : String) (bt iso : Option String) :
    ∀ q ∈ build_add_entry msg bt iso,
      q.1 = "message" ∨ q.1 = "level" ∨ q.1 = "expirationDate" := by
  intro q hq
  cases bt <;> cases iso <;> simp [build_add_entry, alSet] at hq <;> aesop

theorem merge_entry_keys (ex : Entry) (m bt iso : Option String) :
    ∀ q ∈ merge_entry ex m bt iso,
      q.1 = "message" ∨ q.1 = "level" ∨ q.1 = "expirationDate" := by
  intro q hq
  cases m <;> cases bt <;> cases iso <;>
    cases hm : alGet ex "message" <;> cases hl : alGet ex "level" <;>
    cases he : alGet ex "expirationDate" <;>
    simp [merge_entry, optVal, hm, hl, he, alSet] at hq <;> aesop

/-! ### Claims -/

/-- Claim C1, counterexample to the claim as stated: updating the banner `"b"` whose
existing entry has no `message` sub-key, supplying only `level`, produces a
replacement entry in which the `message` field is NOT omitted: it is present with
value `None` (from the initial `{"message": message}` dict literal with
`message = None`). -/
theorem c1_counterexample :
    (banner_update (fun _ => none) [("GlobalMessageBanners/b", [])] none (some "info") "b" none).1
      = Except.ok [("b", [("message", Val.null), ("level", Val.str "info")])]
    ∧ alGet ([("message", Val.null), ("level", Val.str "info")] : Entry) "message"
        = some Val.null
    ∧ (banner_update (fun _ => none) [("GlobalMessageBanners/b", [])] none (some "info") "b" none).1
      ≠ Except.ok [("b", [("level", Val.str "info")])] := by
  refine ⟨rfl, rfl, ?_⟩
  intro hcon
  rw [show (banner_update (fun _ => none) [("GlobalMessageBanners/b", [])] none (some "info") "b" none).1
      = Except.ok [("b", [("message", Val.null), ("level", Val.str "info")])] from rfl] at hcon
  simp at hcon

/-- Claim C1, amended: for every update call with the id present in the listing and at
least one of message, level, expiration supplied (expiration parseable when supplied),
the replacement entry written and returned as `{id: entry}` gives `level` and
`expirationDate` the newly supplied value if given, else the existing entry's value
if present, else omits that field; the `message` field takes the newly supplied value
if given, else the existing entry's value if present, else it is PRESENT WITH VALUE
`None` (not omitted).  In particular an update supplying only `level` leaves `message`
and `expirationDate` at their previously stored values. -/
theorem c1_update_field_merge (nrm : String → Option String) (store : Store)
    (m bt exp : Option String) (id : String) (iso : Option String) (ex : Entry)
    (hne : ¬(m = none ∧ bt = none ∧ exp = none))
    (hiso : normalize_expiration nrm exp = Except.ok iso)
    (hex : alGet (setting_list store GLOBAL_MESSAGE_BANNERS_KEY) id = some ex) :
    banner_update nrm store m bt id exp
      = (Except.ok [(id, merge_entry ex m bt iso)],
         [StoreCall.list "host" GLOBAL_MESSAGE_BANNERS_KEY,
          StoreCall.addOrUpdate USER_SCOPE_HOST [(_get_banner_key id, merge_entry ex m bt iso)]])
    ∧ alGet (merge_entry ex m bt iso) "message"
        = some (m.elim ((alGet ex "message").getD Val.null) Val.str)
    ∧ alGet (merge_entry ex m bt iso) "level"
        = bt.elim (alGet ex "level") (fun s => some (Val.str s))
    ∧ alGet (merge_entry ex m bt iso) "expirationDate"
        = iso.elim (alGet ex "expirationDate") (fun s => some (Val.str s)) := by
  have hgets := merge_entry_gets ex m bt iso
  refine ⟨?_, hgets.1, hgets.2.1, hgets.2.2⟩
  simp [banner_update, hne, hiso, hex]

/-- Witness for C1: a concrete update supplying only `level` on a banner whose stored
entry has `message` and `expirationDate`; both are carried forward unchanged. -/
theorem c1_update_field_merge_witness :
    banner_update (fun _ => none)
        [("GlobalMessageBanners/m1",
          [("message", Val.str "old"), ("expirationDate", Val.str "2019-01-01")])]
        none (some "warning") "m1" none
      = (Except.ok [("m1",
           merge_entry [("message", Val.str "old"), ("expirationDate", Val.str "2019-01-01")]
             none (some "warning") none)],
         [StoreCall.list "host" GLOBAL_MESSAGE_BANNERS_KEY,
          StoreCall.addOrUpdate USER_SCOPE_HOST
            [(_get_banner_key "m1",
              merge_entry [("message", Val.str "old"), ("expirationDate", Val.str "2019-01-01")]
                none (some "warning") none)]])
    ∧ alGet (merge_entry [("message", Val.str "old"), ("expirationDate", Val.str "2019-01-01")]
          none (some "warning") none) "message" = some (Val.str "old")
    ∧ alGet (merge_entry [("message", Val.str "old"), ("expirationDate", Val.str "2019-01-01")]
          none (some "warning") none) "expirationDate" = some (Val.str "2019-01-01") := by
  have h := c1_update_field_merge (fun _ => none)
    [("GlobalMessageBanners/m1",
      [("message", Val.str "old"), ("expirationDate", Val.str "2019-01-01")])]
    none (some "warning") none "m1" none
    [("message", Val.str "old"), ("expirationDate", Val.str "2019-01-01")]
    (by simp) rfl rfl
  exact ⟨h.1, by rw [h.2.1]; rfl, by rw [h.2.2.2]; rfl⟩

/-- Claim C2: an update call in which message, level and expiration are all omitted
fails with the validation error enumerating all three flag names, with an empty
Settings Store call trace (so before any store call, independent of whether the id
exists), leaving the store unchanged. -/
theorem c2_update_no_fields_validation (nrm : String → Option String) (store : Store)
    (id : String) :
    banner_update nrm store none none id none
      = (Except.error
           "At least one of the following arguments need to be supplied: --message, --type, --expiration.",
         [])
    ∧ applyCalls store (banner_update nrm store none none id none).2 = store := by
  exact ⟨rfl, rfl⟩

/-- Claim C3: an update call supplying at least one optional field, with parseable
expiration (if any), on an id absent from the fetched listing fails with the
"not found" error after only the `list` call, and the store is unchanged. -/
theorem c3_update_not_found (nrm : String → Option String) (store : Store)
    (m bt exp : Option String) (id : String) (iso : Option String)
    (hne : ¬(m = none ∧ bt = none ∧ exp = none))
    (hiso : normalize_expiration nrm exp = Except.ok iso)
    (habs : alGet (setting_list store GLOBAL_MESSAGE_BANNERS_KEY) id = none) :
    banner_update nrm store m bt id exp
      = (Except.error ("The following banner was not found: " ++ id),
         [StoreCall.list "host" GLOBAL_MESSAGE_BANNERS_KEY])
    ∧ applyCalls store (banner_update nrm store m bt id exp).2 = store := by
  have hres : banner_update nrm store m bt id exp
      = (Except.error ("The following banner was not found: " ++ id),
         [StoreCall.list "host" GLOBAL_MESSAGE_BANNERS_KEY]) := by
    simp [banner_update, hne, hiso, habs]
  refine ⟨hres, ?_⟩
  rw [hres]
  rfl

/-- Witness for C3: updating a nonexistent id on an empty store, supplying only
`message`, fails "not found" and leaves the store unchanged. -/
theorem c3_update_not_found_witness :
    banner_update (fun _ => none) [] (some "new text") none "nope" none
      = (Except.error ("The following banner was not found: " ++ "nope"),
         [StoreCall.list "host" GLOBAL_MESSAGE_BANNERS_KEY])
    ∧ applyCalls [] (banner_update (fun _ => none) [] (some "new text") none "nope" none).2 = [] :=
  c3_update_not_found (fun _ => none) [] (some "new text") none none "nope" none
    (by simp) rfl rfl

/-- Normalization (`normalize_expiration`) succeeds with a `some` result exactly when an expiration
was supplied (and then only if it parsed). -/
theorem normalize_expiration_isSome {nrm : String → Option String} {exp iso : Option String}
    (hiso : normalize_expiration nrm exp = Except.ok iso) : iso.isSome = exp.isSome := by
  cases exp with
  | none =>
    simp [normalize_expiration] at hiso
    subst hiso
    rfl
  | some v =>
    cases hnv : nrm v with
    | none =>
      simp [normalize_expiration, convert_date_string_to_iso8601, hnv] at hiso
    | some i =>
      simp [normalize_expiration, convert_date_string_to_iso8601, hnv] at hiso
      subst hiso
      rfl

/-- Claim C4: supplying an unparseable expiration to `add` or `update` fails with the
Date Normalizer's validation error, with an empty Settings Store call trace, so the
store state is unchanged. -/
theorem c4_unparseable_expiration_no_mutation (nrm : String → Option String) (store : Store)
    (v : String) (hbad : nrm v = none) :
    (∀ (rand : Nat) (msg : String) (bt mid : Option String),
       banner_add nrm rand msg bt mid (some v)
         = (Except.error ("The following value is invalid for argument expiration: " ++ v), [])
       ∧ applyCalls store (banner_add nrm rand msg bt mid (some v)).2 = store)
  ∧ (∀ (m bt : Option String) (id : String),
       banner_update nrm store m bt id (some v)
         = (Except.error ("The following value is invalid for argument expiration: " ++ v), [])
       ∧ applyCalls store (banner_update nrm store m bt id (some v)).2 = store) := by
  have hnorm : normalize_expiration nrm (some v)
      = Except.error ("The following value is invalid for argument expiration: " ++ v) := by
    simp [normalize_expiration, convert_date_string_to_iso8601, hbad]
  constructor
  · intro rand msg bt mid
    have hadd : banner_add nrm rand msg bt mid (some v)
        = (Except.error ("The following value is invalid for argument expiration: " ++ v), []) := by
      simp [banner_add, hnorm]
    exact ⟨hadd, by rw [hadd]; rfl⟩
  · intro m bt id
    have hcond : ¬(m = none ∧ bt = none ∧ (some v : Option String) = none) := by simp
    have hupd : banner_update nrm store m bt id (some v)
        = (Except.error ("The following value is invalid for argument expiration: " ++ v), []) := by
      simp [banner_update, hcond, hnorm]
    exact ⟨hupd, by rw [hupd]; rfl⟩

/-- Witness for C4: the unparseable expiration string `"junk"` makes both `add` and
`update` fail with the validation error and leave the (empty) store unchanged. -/
theorem c4_unparseable_expiration_no_mutation_witness :
    (banner_add (fun _ => none) 0 "m" none none (some "junk")
       = (Except.error ("The following value is invalid for argument expiration: " ++ "junk"), [])
     ∧ applyCalls [] (banner_add (fun _ => none) 0 "m" none none (some "junk")).2 = [])
  ∧ (banner_update (fun _ => none) [] none none "m1" (some "junk")
       = (Except.error ("The following value is invalid for argument expiration: " ++ "junk"), [])
     ∧ applyCalls [] (banner_update (fun _ => none) [] none none "m1" (some "junk")).2 = []) :=
  ⟨(c4_unparseable_expiration_no_mutation (fun _ => none) [] "junk" rfl).1 0 "m" none none,
   (c4_unparseable_expiration_no_mutation (fun _ => none) [] "junk" rfl).2 none none "m1"⟩

/-- Claim C5: a successful `add` writes, in a single unconditional `addOrUpdate` call
with no prior read, the entry containing `message`, containing `level` exactly when a
banner type was supplied and `expirationDate` (the normalized expiration) exactly when
an expiration was supplied, under the namespaced key, and returns `{id: entry}` for
that same entry. -/
theorem c5_add_unconditional_write (nrm : String → Option String) (rand : Nat) (msg : String)
    (bt mid exp iso : Option String) (rid : String) (E : Entry)
    (hiso : normalize_expiration nrm exp = Except.ok iso)
    (hrid : rid = mid.elim (str_uuid4 rand) (fun s => if s = "" then str_uuid4 rand else s))
    (hE : E = build_add_entry msg bt iso) :
    banner_add nrm rand msg bt mid exp
      = (Except.ok [(rid, E)],
         [StoreCall.addOrUpdate USER_SCOPE_HOST [(_get_banner_key rid, E)]])
    ∧ alGet E "message" = some (Val.str msg)
    ∧ alGet E "level" = Option.map Val.str bt
    ∧ alGet E "expirationDate" = Option.map Val.str iso
    ∧ iso.isSome = exp.isSome := by
  subst hrid hE
  have hgets := build_add_entry_gets msg bt iso
  refine ⟨?_, hgets.1, hgets.2.1, hgets.2.2, normalize_expiration_isSome hiso⟩
  cases mid <;> simp [banner_add, hiso, Option.elim]

/-- Witness for C5: a concrete `add` with id, level and a parseable expiration. -/
theorem c5_add_unconditional_write_witness :
    banner_add (fun _ => some "2019-01-01T00:00:00Z") 0 "Maint" (some "warning") (some "m1")
        (some "tomorrow")
      = (Except.ok [("m1", build_add_entry "Maint" (some "warning") (some "2019-01-01T00:00:00Z"))],
         [StoreCall.addOrUpdate USER_SCOPE_HOST
            [(_get_banner_key "m1",
              build_add_entry "Maint" (some "warning") (some "2019-01-01T00:00:00Z"))]]) :=
  (c5_add_unconditional_write (fun _ => some "2019-01-01T00:00:00Z") 0 "Maint" (some "warning")
    (some "m1") (some "tomorrow") (some "2019-01-01T00:00:00Z") "m1"
    (build_add_entry "Maint" (some "warning") (some "2019-01-01T00:00:00Z")) rfl rfl rfl).1

/-- Claim C6: `add` with an omitted or empty id uses the generated UUID-format token
as the returned id; that token is never the empty string, and distinct 128-bit random
tokens always produce distinct ids; a supplied non-empty id is used as given. -/
theorem c6_add_id_generation :
    (∀ (nrm : String → Option String) (rand : Nat) (msg : String) (bt : Option String),
       (banner_add nrm rand msg bt none none).1
         = Except.ok [(str_uuid4 rand, build_add_entry msg bt none)])
  ∧ (∀ (nrm : String → Option String) (rand : Nat) (msg : String) (bt : Option String),
       (banner_add nrm rand msg bt (some "") none).1
         = Except.ok [(str_uuid4 rand, build_add_entry msg bt none)])
  ∧ (∀ rand : Nat, str_uuid4 rand ≠ "")
  ∧ (∀ r1 r2 : Nat, r1 < 2 ^ 128 → r2 < 2 ^ 128 → r1 ≠ r2 → str_uuid4 r1 ≠ str_uuid4 r2)
  ∧ (∀ (nrm : String → Option String) (rand : Nat) (msg : String) (bt : Option String)
       (s : String), s ≠ "" →
       (banner_add nrm rand msg bt (some s) none).1
         = Except.ok [(s, build_add_entry msg bt none)]) := by
  refine ⟨?_, ?_, str_uuid4_ne_empty, @str_uuid4_injective, ?_⟩
  · intro nrm rand msg bt
    simp [banner_add, normalize_expiration]
  · intro nrm rand msg bt
    simp [banner_add, normalize_expiration]
  · intro nrm rand msg bt s hs
    simp [banner_add, normalize_expiration, hs]

/-- Witness for C6: concrete instances of id generation, non-emptiness, distinctness
and pass-through. -/
theorem c6_add_id_generation_witness :
    (banner_add (fun _ => none) 7 "m" none none none).1
      = Except.ok [(str_uuid4 7, build_add_entry "m" none none)]
    ∧ str_uuid4 0 ≠ ""
    ∧ str_uuid4 0 ≠ str_uuid4 1
    ∧ (banner_add (fun _ => none) 7 "m" none (some "m1") none).1
      = Except.ok [("m1", build_add_entry "m" none none)] :=
  ⟨c6_add_id_generation.1 (fun _ => none) 7 "m" none,
   c6_add_id_generation.2.2.1 0,
   c6_add_id_generation.2.2.2.1 0 1 (by norm_num) (by norm_num) (by norm_num),
   c6_add_id_generation.2.2.2.2 (fun _ => none) 7 "m" none "m1" (by decide)⟩

/-- Claim C7: `show(id)` issues exactly one Settings Store call — the full listing —
never writes (the store is unchanged by its trace), and returns the singleton
`{id: value}` when the bare id is present in the listing, else fails with the
"not found" error naming the id. -/
theorem c7_show_full_listing_lookup (store : Store) (id : String) :
    (banner_show store id).2 = [StoreCall.list "host" GLOBAL_MESSAGE_BANNERS_KEY]
  ∧ applyCalls store (banner_show store id).2 = store
  ∧ (banner_show store id).1
      = (alGet (setting_list store GLOBAL_MESSAGE_BANNERS_KEY) id).elim
          (Except.error ("The following banner was not found: " ++ id))
          (fun v => Except.ok [(id, v)]) := by
  refine ⟨?_, ?_, ?_⟩ <;>
    cases h : alGet (setting_list store GLOBAL_MESSAGE_BANNERS_KEY) id <;>
    simp [banner_show, h, applyCalls, applyCall]

/-- Claim C8: for every id and every store state, `remove(id)` followed by `show(id)`
on the resulting store state fails with the "not found" error. -/
theorem c8_remove_then_show_not_found (store : Store) (id : String) :
    (banner_show (applyCalls store (banner_remove id).2) id).1
      = Except.error ("The following banner was not found: " ++ id) := by
  have h := alGet_setting_list_alRemove store GLOBAL_MESSAGE_BANNERS_KEY id
  simp [banner_remove, applyCalls, applyCall, banner_show, _get_banner_key, h]

/-- Claim C9: every entry batch passed to a Settings Store `addOrUpdate` call by `add`
or `update` consists of entries whose sub-keys are among `message`, `level`,
`expirationDate`; `show` and `remove` never issue an `addOrUpdate` call at all. -/
theorem c9_persisted_entry_shape :
    (∀ (nrm : String → Option String) (rand : Nat) (msg : String) (bt mid exp : Option String)
       (sc : String) (entries : List (String × Entry)),
       StoreCall.addOrUpdate sc entries ∈ (banner_add nrm rand msg bt mid exp).2 →
       ∀ p ∈ entries, ∀ q ∈ p.2, q.1 = "message" ∨ q.1 = "level" ∨ q.1 = "expirationDate")
  ∧ (∀ (nrm : String → Option String) (store : Store) (m bt : Option String) (id : String)
       (exp : Option String) (sc : String) (entries : List (String × Entry)),
       StoreCall.addOrUpdate sc entries ∈ (banner_update nrm store m bt id exp).2 →
       ∀ p ∈ entries, ∀ q ∈ p.2, q.1 = "message" ∨ q.1 = "level" ∨ q.1 = "expirationDate")
  ∧ (∀ (store : Store) (id sc : String) (entries : List (String × Entry)),
       StoreCall.addOrUpdate sc entries ∉ (banner_show store id).2)
  ∧ (∀ (id sc : String) (entries : List (String × Entry)),
       StoreCall.addOrUpdate sc entries ∉ (banner_remove id).2) := by
  refine ⟨?_, ?_, ?_, ?_⟩
  · intro nrm rand msg bt mid exp sc entries hmem p hp q hq
    cases hnorm : normalize_expiration nrm exp with
    | error e => simp [banner_add, hnorm] at hmem
    | ok iso =>
      simp [banner_add, hnorm] at hmem
      obtain ⟨hsc, hent⟩ := hmem
      subst hent
      simp at hp
      subst hp
      exact build_add_entry_keys msg bt iso q hq
  · intro nrm store m bt id exp sc entries hmem p hp q hq
    by_cases hcond : m = none ∧ bt = none ∧ exp = none
    · simp [banner_update, hcond] at hmem
    · cases hnorm : normalize_expiration nrm exp with
      | error e => simp [banner_update, hcond, hnorm] at hmem
      | ok iso =>
        cases hex : alGet (setting_list store GLOBAL_MESSAGE_BANNERS_KEY) id with
        | none => simp [banner_update, hcond, hnorm, hex] at hmem
        | some ex =>
          simp [banner_update, hcond, hnorm, hex] at hmem
          obtain ⟨hsc, hent⟩ := hmem
          subst hent
          simp at hp
          subst hp
          exact merge_entry_keys ex m bt iso q hq
  · intro store id sc entries hmem
    cases h : alGet (setting_list store GLOBAL_MESSAGE_BANNERS_KEY) id <;>
      simp [banner_show, h] at hmem
  · intro id sc entries hmem
    simp [banner_remove] at hmem

/-- Witness for C9: the single sub-key of the entry a concrete `add` passes to
`addOrUpdate` is one of the three allowed names. -/
theorem c9_persisted_entry_shape_witness :
    (("message", Val.str "m") : String × Val).1 = "message"
    ∨ (("message", Val.str "m") : String × Val).1 = "level"
    ∨ (("message", Val.str "m") : String × Val).1 = "expirationDate" :=
  c9_persisted_entry_shape.1 (fun _ => none) 0 "m" none (some "m1") none "host"
    [("GlobalMessageBanners/m1", [("message", Val.str "m")])]
    (by decide)
    ("GlobalMessageBanners/m1", [("message", Val.str "m")]) (by simp)
    ("message", Val.str "m") (by simp [build_add_entry])

/-- Claim C10: for a non-empty id, the key `show` and `update` use for the lookup in
the listing result is the bare id, the key `add`, `update` and `remove` use to address
the store is the namespaced `_get_banner_key id`, and the two are never equal. -/
theorem c10_lookup_key_vs_storage_key (store : Store) (id : String) (h : id ≠ "") :
    _get_banner_key id ≠ id
  ∧ (banner_show store id).1
      = (alGet (setting_list store GLOBAL_MESSAGE_BANNERS_KEY) id).elim
          (Except.error ("The following banner was not found: " ++ id))
          (fun v => Except.ok [(id, v)])
  ∧ (banner_remove id).2 = [StoreCall.remove "host" (_get_banner_key id)]
  ∧ (∀ (nrm : String → Option String) (m bt exp iso : Option String) (ex : Entry),
       ¬(m = none ∧ bt = none ∧ exp = none) →
       normalize_expiration nrm exp = Except.ok iso →
       alGet (setting_list store GLOBAL_MESSAGE_BANNERS_KEY) id = some ex →
       (banner_update nrm store m bt id exp).2
         = [StoreCall.list "host" GLOBAL_MESSAGE_BANNERS_KEY,
            StoreCall.addOrUpdate USER_SCOPE_HOST
              [(_get_banner_key id, merge_entry ex m bt iso)]])
  ∧ (∀ (nrm : String → Option String) (rand : Nat) (msg : String) (bt exp iso : Option String),
       normalize_expiration nrm exp = Except.ok iso →
       (banner_add nrm rand msg bt (some id) exp).2
         = [StoreCall.addOrUpdate USER_SCOPE_HOST
              [(_get_banner_key id, build_add_entry msg bt iso)]]) := by
  refine ⟨?_, ?_, rfl, ?_, ?_⟩
  · intro hk
    have hlen := congrArg String.length hk
    have h1 : GLOBAL_MESSAGE_BANNERS_KEY.length = 20 := rfl
    have h2 : ("/" : String).length = 1 := rfl
    rw [_get_banner_key, String.length_append, String.length_append, h1, h2] at hlen
    omega
  · cases hget : alGet (setting_list store GLOBAL_MESSAGE_BANNERS_KEY) id <;>
      simp [banner_show, hget]
  · intro nrm m bt exp iso ex hne hiso hex
    simp [banner_update, hne, hiso, hex]
  · intro nrm rand msg bt exp iso hiso
    simp [banner_add, hiso, h]

/-- Witness for C10: the claim instantiated at the id `"m1"` on the empty store. -/
theorem c10_lookup_key_vs_storage_key_witness :
    _get_banner_key "m1" ≠ "m1"
    ∧ (banner_remove "m1").2 = [StoreCall.remove "host" (_get_banner_key "m1")]
    ∧ (banner_add (fun _ => none) 0 "m" none (some "m1") none).2
      = [StoreCall.addOrUpdate USER_SCOPE_HOST
           [(_get_banner_key "m1", build_add_entry "m" none none)]] :=
  ⟨(c10_lookup_key_vs_storage_key [] "m1" (by decide)).1,
   (c10_lookup_key_vs_storage_key [] "m1" (by decide)).2.2.1,
   (c10_lookup_key_vs_storage_key [] "m1" (by decide)).2.2.2.2 (fun _ => none) 0 "m" none none
     none rfl⟩

end VstsBanner
